import Mathlib

/-!
# Verification of the aforo line-crossing counter (src/aforo/v8.py)

Shallow embedding of the pure algorithmic core of `ControlAforoCruceLinea`:
the height-calibration unit, the height classifier, the greedy identity
tracker and the line-crossing detector, together with proofs of the
specified properties.

Modelling conventions:
* Python floats are modelled as exact rationals (`ℚ`); pixel coordinates,
  which the source truncates to `int`, are modelled as `ℤ`.
* Python `int(x)` (truncation toward zero) is `pyint`; Python `round(x, 1)`
  (banker's rounding to one decimal place) is `pyround1`.
* The source compares `np.sqrt` of squared distances against thresholds and
  against each other; since `sqrt` is strictly monotone on nonnegatives,
  the embedding compares the squared distances against squared thresholds,
  which yields exactly the same branch decisions.
* Python dicts (insertion-ordered) are association lists `List (Nat × _)`;
  Python sets of ids are `List Nat` (membership-only use in the source).
* An uncaught Python exception (the unguarded division in
  `confirmar_calibracion`) is modelled by the `ConfirmResult.crash`
  constructor, paired with the state as mutated up to the raising line.
-/

namespace Aforo

/-- Python `int(x)` on a real value: truncation toward zero. -/
def pyint (x : ℚ) : ℤ :=
  if 0 ≤ x then Int.floor x else -Int.floor (-x)

/-- Python `round(x*10)` helper: round to the nearest integer, ties to even
(banker's rounding, as Python's built-in `round` does). -/
def roundHalfEven (x : ℚ) : ℤ :=
  if x - Int.floor x < 1/2 then Int.floor x
  else if (1 : ℚ)/2 < x - Int.floor x then Int.floor x + 1
  else if Int.floor x % 2 = 0 then Int.floor x else Int.floor x + 1

/-- Python `round(x, 1)`: round to one decimal place, ties to even. -/
def pyround1 (x : ℚ) : ℚ :=
  (roundHalfEven (10 * x) : ℚ) / 10

/-- A movement event emitted by the crossing detector
(`"entrada"` / `"salida"` strings in the source). -/
inductive Movimiento where
  | entrada
  | salida
deriving DecidableEq

/-- The classification labels returned by `clasificar_persona`
(`"Sin calibrar"`, `"Niño/a"`, `"Adolescente"`, `"Mujer"`, `"Hombre"`). -/
inductive Categoria where
  | sinCalibrar
  | ninio
  | adolescente
  | mujer
  | hombre
deriving DecidableEq

/-- An axis-aligned bounding box `(x1, y1, x2, y2)`, as produced by the
detector boundary (already truncated to `int` in the source). -/
structure BBox where
  x1 : ℤ
  y1 : ℤ
  x2 : ℤ
  y2 : ℤ
deriving DecidableEq

/-- The per-identity record stored in `personas_trackeadas`
(the dict built for each detection in `trackear_personas`). -/
structure PersonaInfo where
  bbox : BBox
  centro : ℤ × ℤ
  pies : ℤ × ℤ
  altura_px : ℤ
  altura_cm : Option ℚ
  clasificacion : Categoria
  color : ℤ × ℤ × ℤ
deriving DecidableEq

/-- The mutable fields of `ControlAforoCruceLinea` that the algorithmic
core reads and writes (database/video handles are external and omitted). -/
structure Sistema where
  y_cruce : Option ℚ
  posicion_y_cruce : ℚ
  personas_trackeadas : List (Nat × PersonaInfo)
  siguiente_id : Nat
  historial_posicion : List (Nat × List ℚ)
  ids_cruzados : List Nat
  calibrado : Bool
  altura_real_referencia_cm : Option ℚ
  altura_pixeles_referencia : Option ℤ
  factor_conversion : Option ℚ
  modo_calibracion : Bool
  punto1_calibracion : Option (ℤ × ℤ)
  punto2_calibracion : Option (ℤ × ℤ)
deriving DecidableEq

/-- `self.max_historial = 5`. -/
def max_historial : Nat := 5

/-- `self.distancia_maxima_tracking = 100`. -/
def distancia_maxima_tracking : ℤ := 100

/-! ## Geometry utilities -/

/-- `obtener_centro_bbox`: `(int((x1+x2)/2), int((y1+y2)/2))`. -/
def obtener_centro_bbox (b : BBox) : ℤ × ℤ :=
  (pyint (((b.x1 : ℚ) + b.x2) / 2), pyint (((b.y1 : ℚ) + b.y2) / 2))

/-- `obtener_pies_persona`: `(int((x1+x2)/2), int(y2))`. -/
def obtener_pies_persona (b : BBox) : ℤ × ℤ :=
  (pyint (((b.x1 : ℚ) + b.x2) / 2), b.y2)

/-- `calcular_altura_persona`: `y2 - y1`. -/
def calcular_altura_persona (b : BBox) : ℤ :=
  b.y2 - b.y1

/-- Squared Euclidean distance. The source computes
`np.sqrt((p1[0]-p2[0])**2 + (p1[1]-p2[1])**2)` and only ever compares these
values with each other and with the threshold `100`; comparing the squares
(against the squared threshold) makes exactly the same decisions. -/
def calcular_distancia_euclidiana_sq (p1 p2 : ℤ × ℤ) : ℤ :=
  (p1.1 - p2.1) ^ 2 + (p1.2 - p2.2) ^ 2

/-! ## Calibration unit -/

/-- `iniciar_calibracion`: store the reference height, enter calibration
mode, clear both points.  Neither `calibrado` nor `factor_conversion`
is touched. -/
def iniciar_calibracion (s : Sistema) (altura_real_cm : ℚ) : Sistema :=
  { s with altura_real_referencia_cm := some altura_real_cm
           modo_calibracion := true
           punto1_calibracion := none
           punto2_calibracion := none }

/-- `reiniciar_calibracion`: clear both calibration points. -/
def reiniciar_calibracion (s : Sistema) : Sistema :=
  { s with punto1_calibracion := none
           punto2_calibracion := none }

/-- Result of `confirmar_calibracion`: the Python function returns a bool,
or lets an exception propagate (`crash`).  The source guards neither the
division by `altura_pixeles_referencia = 0` (ZeroDivisionError) nor a
`None` reference height (TypeError). -/
inductive ConfirmResult where
  | ok (ret : Bool)
  | crash
deriving DecidableEq

/-- `confirmar_calibracion`.  With both points present the source first
stores `altura_pixeles_referencia = abs(p2.y - p1.y)` (line 124) and then
divides (line 125): on a zero-pixel reference, or a `None` reference
height, the division raises, leaving the state as mutated by line 124. -/
def confirmar_calibracion (s : Sistema) : Sistema × ConfirmResult :=
  match s.punto1_calibracion, s.punto2_calibracion with
  | some p1, some p2 =>
      let altura_px : ℤ := |p2.2 - p1.2|
      let s1 := { s with altura_pixeles_referencia := some altura_px }
      match s.altura_real_referencia_cm with
      | none => (s1, ConfirmResult.crash)
      | some cm =>
          if altura_px = 0 then (s1, ConfirmResult.crash)
          else
            ({ s1 with factor_conversion := some (cm / (altura_px : ℚ))
                       calibrado := true
                       modo_calibracion := false },
             ConfirmResult.ok true)
  | _, _ => (s, ConfirmResult.ok false)

/-- `estimar_altura_real`: `None` unless calibrated with a stored factor,
else `round(altura_px * factor_conversion, 1)`. -/
def estimar_altura_real (s : Sistema) (altura_px : ℚ) : Option ℚ :=
  match s.calibrado, s.factor_conversion with
  | true, some f => some (pyround1 (altura_px * f))
  | _, _ => none

/-! ## Height classifier -/

/-- `clasificar_persona`: returns `(categoria, altura_cm, color)`. -/
def clasificar_persona (s : Sistema) (altura_px ancho_px : ℤ) :
    Categoria × Option ℚ × (ℤ × ℤ × ℤ) :=
  match estimar_altura_real s (altura_px : ℚ) with
  | none => (Categoria.sinCalibrar, none, (128, 128, 128))
  | some altura_cm =>
      let proporcion : ℚ := if ancho_px > 0 then (altura_px : ℚ) / (ancho_px : ℚ) else 0
      if altura_cm < 110 then (Categoria.ninio, some altura_cm, (255, 200, 0))
      else if altura_cm < 150 then (Categoria.adolescente, some altura_cm, (0, 200, 255))
      else if proporcion > 28/10 then (Categoria.mujer, some altura_cm, (255, 0, 255))
      else (Categoria.hombre, some altura_cm, (255, 100, 0))

/-! ## Crossing detector -/

/-- The slice of state `detectar_cruce_linea` touches for one identity:
its `historial_posicion` entry and its `ids_cruzados` membership. -/
structure CruceState where
  historial : List ℚ
  cruzado : Bool
deriving DecidableEq

/-- Lines 400-402: append the sample, evict the oldest when the history
exceeds `max_historial`. -/
def pasoHistorial (h : List ℚ) (y : ℚ) : List ℚ :=
  let h1 := h ++ [y]
  if h1.length > max_historial then h1.tail else h1

/-- One call of `detectar_cruce_linea` for one identity (lines 399-424),
acting on that identity's slice of the state.  Zone `true` is `"Arriba"`
(above the line, `y < y_cruce`), `false` is `"Abajo"`. -/
def paso_cruce (y_cruce : ℚ) (st : CruceState) (y_pies : ℚ) :
    CruceState × Option Movimiento :=
  let h := pasoHistorial st.historial y_pies
  if h.length < 2 then ({ st with historial := h }, none)
  else
    let zona_actual : Bool := y_pies < y_cruce
    let y_inicial : ℚ := (h.take 2).sum / 2
    let zona_anterior : Bool := y_inicial < y_cruce
    if zona_actual ≠ zona_anterior then
      if st.cruzado then ({ st with historial := h }, none)
      else if zona_anterior then
        ({ historial := h, cruzado := true }, some Movimiento.entrada)
      else
        ({ historial := h, cruzado := true }, some Movimiento.salida)
    else ({ st with historial := h }, none)

/-- Iterate `paso_cruce` over a sample sequence, recording each call's
result (the whole lifetime of one identity at the crossing detector). -/
def runCruce (y_cruce : ℚ) (st : CruceState) :
    List ℚ → CruceState × List (Option Movimiento)
  | [] => (st, [])
  | y :: ys =>
      let pr := paso_cruce y_cruce st y
      let rest := runCruce y_cruce pr.1 ys
      (rest.1, pr.2 :: rest.2)

/-- The `y_inicial` (`np.mean(historial[:2])`, line 409) that
`detectar_cruce_linea` computes at the last of a sequence of calls. -/
def y_inicial_en (ys : List ℚ) : ℚ :=
  ((ys.foldl pasoHistorial []).take 2).sum / 2

/-- Association-list lookup with the `defaultdict(list)` default. -/
def histGet (l : List (Nat × List ℚ)) (id : Nat) : List ℚ :=
  (l.lookup id).getD []

/-- Association-list update: replace the entry if the key is present,
otherwise append it (dict insertion order). -/
def histSet (l : List (Nat × List ℚ)) (id : Nat) (v : List ℚ) :
    List (Nat × List ℚ) :=
  if l.any (fun kv => kv.1 == id) then
    l.map (fun kv => if kv.1 == id then (id, v) else kv)
  else l ++ [(id, v)]

/-- `detectar_cruce_linea` on the full state: act on the identity's slice
with `paso_cruce`, write the slice back (`ids_cruzados.add` on an emitted
event). -/
def detectar_cruce_linea (s : Sistema) (id_persona : Nat) (y_pies : ℚ) :
    Sistema × Option Movimiento :=
  let st : CruceState :=
    { historial := histGet s.historial_posicion id_persona
      cruzado := s.ids_cruzados.contains id_persona }
  let pr := paso_cruce (s.y_cruce.getD 0) st y_pies
  ({ s with historial_posicion := histSet s.historial_posicion id_persona pr.1.historial
            ids_cruzados :=
              if pr.2.isSome then s.ids_cruzados ++ [id_persona] else s.ids_cruzados },
   pr.2)

/-! ## Identity tracker -/

/-- The body of the inner loop of `trackear_personas` (lines 349-356):
skip already-matched ids, otherwise keep the candidate if it is strictly
closer than the best so far. -/
def mejorPaso (centro : ℤ × ℤ) (ids_usados : List Nat)
    (acc : Option Nat × ℤ) (p : Nat × PersonaInfo) : Option Nat × ℤ :=
  if p.1 ∈ ids_usados then acc
  else
    let dist := calcular_distancia_euclidiana_sq centro p.2.centro
    if dist < acc.2 then (some p.1, dist) else acc

/-- The inner loop of `trackear_personas` (lines 346-356): among the
previous-frame identities not yet in `ids_usados`, find the first strict
minimizer of the centroid distance, starting from the threshold
(`mejor_dist = distancia_maxima_tracking`).  Returns `(mejor_id, mejor_dist)`
with squared distances (see `calcular_distancia_euclidiana_sq`). -/
def buscar_mejor (centro : ℤ × ℤ) (ids_usados : List Nat)
    (prev : List (Nat × PersonaInfo)) : Option Nat × ℤ :=
  prev.foldl (mejorPaso centro ids_usados) (none, distancia_maxima_tracking ^ 2)

/-- The accumulator of the detection loop of `trackear_personas`:
`personas_actual`, `ids_usados` and the id counter. -/
structure TrackAcc where
  personas_actual : List (Nat × PersonaInfo)
  ids_usados : List Nat
  siguiente_id : Nat
deriving DecidableEq

/-- The per-detection record built at lines 339-344 and 359-367/372-380
(the same field values are stored whether the detection is matched or
new). -/
def crearInfo (s : Sistema) (bbox : BBox) : PersonaInfo :=
  { bbox := bbox
    centro := obtener_centro_bbox bbox
    pies := obtener_pies_persona bbox
    altura_px := calcular_altura_persona bbox
    altura_cm := (clasificar_persona s (calcular_altura_persona bbox) (bbox.x2 - bbox.x1)).2.1
    clasificacion := (clasificar_persona s (calcular_altura_persona bbox) (bbox.x2 - bbox.x1)).1
    color := (clasificar_persona s (calcular_altura_persona bbox) (bbox.x2 - bbox.x1)).2.2 }

/-- The body of the detection loop of `trackear_personas` (lines 338-380):
bind the detection to the best unmatched previous identity if one is within
the threshold, otherwise create a new identity with the next id. -/
def procesar_deteccion (s : Sistema) (acc : TrackAcc) (bbox : BBox) : TrackAcc :=
  let centro := obtener_centro_bbox bbox
  let info := crearInfo s bbox
  match (buscar_mejor centro acc.ids_usados s.personas_trackeadas).1 with
  | some mejor_id =>
      { acc with personas_actual := acc.personas_actual ++ [(mejor_id, info)]
                 ids_usados := acc.ids_usados ++ [mejor_id] }
  | none =>
      { acc with personas_actual := acc.personas_actual ++ [(acc.siguiente_id, info)]
                 siguiente_id := acc.siguiente_id + 1 }

/-- `trackear_personas` (lines 334-392): the greedy single-pass matching
loop, then retirement of every previous identity not matched this frame
(its history entry and `ids_cruzados` membership are removed).  Returns the
updated state and `personas_actual`. -/
def trackear_personas (s : Sistema) (detecciones : List BBox) :
    Sistema × List (Nat × PersonaInfo) :=
  let acc := detecciones.foldl (procesar_deteccion s)
    { personas_actual := [], ids_usados := [], siguiente_id := s.siguiente_id }
  let ids_actuales := acc.personas_actual.map (fun p => p.1)
  let ids_fuera :=
    (s.personas_trackeadas.map (fun p => p.1)).filter (fun i => !ids_actuales.contains i)
  ({ s with personas_trackeadas := acc.personas_actual
            siguiente_id := acc.siguiente_id
            historial_posicion :=
              s.historial_posicion.filter (fun kv => !ids_fuera.contains kv.1)
            ids_cruzados := s.ids_cruzados.filter (fun i => !ids_fuera.contains i) },
   acc.personas_actual)

/-! ## Frame pipeline -/

/-- One element of the `movimientos` list built in `detectar_y_trackear`. -/
structure MovInfo where
  tipo : Movimiento
  clasificacion : Categoria
  altura_px : ℤ
  altura_cm : Option ℚ
deriving DecidableEq

/-- The algorithmic core of `detectar_y_trackear` (lines 431-559, drawing
elided): fix `y_cruce` on the first frame, run the tracker, and — only when
not in calibration mode — run the crossing detector over the frame's
identities in order, collecting the emitted movements. -/
def detectar_y_trackear (s : Sistema) (altura : ℤ) (detecciones : List BBox) :
    Sistema × List (Nat × PersonaInfo) × List MovInfo :=
  let s0 := match s.y_cruce with
    | none => { s with y_cruce := some ((pyint ((altura : ℚ) * s.posicion_y_cruce) : ℤ) : ℚ) }
    | some _ => s
  let tr := trackear_personas s0 detecciones
  if tr.1.modo_calibracion then (tr.1, tr.2, [])
  else
    let fin := tr.2.foldl
      (fun (acc : Sistema × List MovInfo) p =>
        let dr := detectar_cruce_linea acc.1 p.1 ((p.2.pies.2 : ℚ))
        match dr.2 with
        | some m =>
            (dr.1, acc.2 ++ [{ tipo := m
                               clasificacion := p.2.clasificacion
                               altura_px := p.2.altura_px
                               altura_cm := p.2.altura_cm }])
        | none => (dr.1, acc.2))
      (tr.1, [])
    (fin.1, tr.2, fin.2)

/-- The initial field values set in `ControlAforoCruceLinea.__init__`. -/
def sistemaInicial : Sistema :=
  { y_cruce := none
    posicion_y_cruce := 1/2
    personas_trackeadas := []
    siguiente_id := 0
    historial_posicion := []
    ids_cruzados := []
    calibrado := false
    altura_real_referencia_cm := none
    altura_pixeles_referencia := none
    factor_conversion := none
    modo_calibracion := false
    punto1_calibracion := none
    punto2_calibracion := none }

/-- A concrete calibrated state (reference 210 cm over 210 px, so the
conversion factor is exactly 1), used as a test input. -/
def sistemaCalibrado : Sistema :=
  { sistemaInicial with
      y_cruce := some 300
      calibrado := true
      altura_real_referencia_cm := some 210
      altura_pixeles_referencia := some 210
      factor_conversion := some 1 }

/-- A previous-frame identity record located at a given centroid (the only
field the matching loop reads), used as a test input. -/
def personaEn (c : ℤ × ℤ) : PersonaInfo :=
  { bbox := ⟨0, 0, 0, 0⟩
    centro := c
    pies := c
    altura_px := 0
    altura_cm := none
    clasificacion := Categoria.sinCalibrar
    color := (0, 0, 0) }

/-- A state with two live identities, ids 7 and 8, at centroids `(10, 0)`
and `(90, 0)` — distances 10 and 90 from the origin — used as a test
input for the greedy matcher. -/
def sistemaDosPersonas : Sistema :=
  { sistemaInicial with
      personas_trackeadas := [(7, personaEn (10, 0)), (8, personaEn (90, 0))]
      siguiente_id := 9 }

/-! ## Lemmas about the crossing detector -/

/-- A call never clears the crossed flag, and sets it exactly when it
emits an event. -/
theorem paso_cruce_cruzado_eq (yc : ℚ) (st : CruceState) (y : ℚ) :
    (paso_cruce yc st y).1.cruzado = (st.cruzado || (paso_cruce yc st y).2.isSome) := by
  simp only [paso_cruce]
  repeat' split
  all_goals simp_all

/-- Once the flag is set, every further call returns `none`. -/
theorem paso_cruce_blocked (yc : ℚ) (st : CruceState) (y : ℚ)
    (h : st.cruzado = true) : (paso_cruce yc st y).2 = none := by
  simp only [paso_cruce]
  repeat' split
  all_goals simp_all

/-- Lifetime behaviour of the crossing detector for one identity: a run
that starts with the flag set emits nothing; a run that starts with the
flag clear emits at most one event, and ends with the flag set iff it
emitted exactly one. -/
theorem runCruce_spec (yc : ℚ) (ys : List ℚ) : ∀ st : CruceState,
    (st.cruzado = true →
       ((runCruce yc st ys).2.filterMap id) = [] ∧
       (runCruce yc st ys).1.cruzado = true) ∧
    (st.cruzado = false →
       ((runCruce yc st ys).2.filterMap id).length ≤ 1 ∧
       ((runCruce yc st ys).1.cruzado = true ↔
          ((runCruce yc st ys).2.filterMap id).length = 1)) := by
  induction ys with
  | nil => intro st; constructor <;> intro h <;> simp [runCruce, h]
  | cons y ys ih =>
      intro st
      constructor
      · intro h
        have hb := paso_cruce_blocked yc st y h
        have hc := paso_cruce_cruzado_eq yc st y
        rw [hb] at hc
        simp only [h, Option.isSome_none, Bool.or_false] at hc
        have := (ih (paso_cruce yc st y).1).1 hc
        simp only [runCruce, hb, List.filterMap_cons_none, this.1, this.2, and_true]
        exact this.1
      · intro h
        cases hm : (paso_cruce yc st y).2 with
        | none =>
            have hc := paso_cruce_cruzado_eq yc st y
            rw [hm] at hc
            simp only [h, Option.isSome_none, Bool.or_false] at hc
            have := (ih (paso_cruce yc st y).1).2 hc
            simp only [runCruce, hm, List.filterMap_cons_none]
            exact this
        | some m =>
            have hc := paso_cruce_cruzado_eq yc st y
            rw [hm] at hc
            simp only [h, Option.isSome_some, Bool.false_or] at hc
            have := (ih (paso_cruce yc st y).1).1 hc
            simp only [runCruce, hm, this.2]
            have hfm : List.filterMap id (some m :: (runCruce yc (paso_cruce yc st y).1 ys).2)
                = m :: List.filterMap id (runCruce yc (paso_cruce yc st y).1 ys).2 := rfl
            rw [hfm, this.1]
            simp
/-- Every branch of `detectar_cruce_linea` stores the same updated
history. -/
theorem paso_cruce_historial (yc : ℚ) (st : CruceState) (y : ℚ) :
    (paso_cruce yc st y).1.historial = pasoHistorial st.historial y := by
  simp only [paso_cruce]
  repeat' split
  all_goals rfl

/-- The history after a run is the fold of the append-and-evict step. -/
theorem runCruce_historial (yc : ℚ) (ys : List ℚ) : ∀ st : CruceState,
    (runCruce yc st ys).1.historial = ys.foldl pasoHistorial st.historial := by
  induction ys with
  | nil => intro st; rfl
  | cons y ys ih =>
      intro st
      simp only [runCruce, List.foldl_cons]
      rw [ih, paso_cruce_historial]

/-- A run over an appended sample list is the run over the first part
followed by the run over the second from the reached state. -/
theorem runCruce_append (yc : ℚ) (xs ys : List ℚ) : ∀ st : CruceState,
    runCruce yc st (xs ++ ys) =
      ((runCruce yc (runCruce yc st xs).1 ys).1,
       (runCruce yc st xs).2 ++ (runCruce yc (runCruce yc st xs).1 ys).2) := by
  induction xs with
  | nil => intro st; simp [runCruce]
  | cons x xs ih =>
      intro st
      show ((runCruce yc (paso_cruce yc st x).1 (xs ++ ys)).1,
            (paso_cruce yc st x).2 :: (runCruce yc (paso_cruce yc st x).1 (xs ++ ys)).2) = _
      rw [ih]
      rfl

/-- Closed form of the history fold: starting below capacity, the history
is always the at-most-`max_historial` most recent samples (FIFO). -/
theorem foldl_pasoHistorial_eq (ys : List ℚ) : ∀ h : List ℚ,
    h.length ≤ max_historial →
    ys.foldl pasoHistorial h = (h ++ ys).drop ((h ++ ys).length - max_historial) := by
  induction ys with
  | nil =>
      intro h hh
      rw [List.foldl_nil, List.append_nil, Nat.sub_eq_zero_of_le hh, List.drop_zero]
  | cons y ys ih =>
      intro h hh
      rw [List.foldl_cons]
      rcases Nat.lt_or_ge h.length max_historial with hlt | hge
      · have hle : ¬ (h ++ [y]).length > max_historial := by
          simp only [List.length_append, List.length_cons, List.length_nil]
          omega
        have hp : pasoHistorial h y = h ++ [y] := by
          simp only [pasoHistorial]
          exact if_neg hle
        have hlen : (h ++ [y]).length ≤ max_historial := by
          simp only [List.length_append, List.length_cons, List.length_nil]
          omega
        rw [hp, ih (h ++ [y]) hlen, List.append_assoc, List.singleton_append]
      · have h5 : h.length = max_historial := Nat.le_antisymm hh hge
        obtain ⟨a, h', rfl⟩ : ∃ a h', h = a :: h' := by
          cases h with
          | nil => simp [max_historial] at h5
          | cons a h' => exact ⟨a, h', rfl⟩
        have h5' : h'.length + 1 = max_historial := by
          simpa using h5
        have hgt : ((a :: h') ++ [y]).length > max_historial := by
          simp only [List.cons_append, List.length_append, List.length_cons,
            List.length_nil]
          omega
        have hp : pasoHistorial (a :: h') y = h' ++ [y] := by
          simp only [pasoHistorial]
          rw [if_pos hgt, List.cons_append, List.tail_cons]
        have hlen : (h' ++ [y]).length ≤ max_historial := by
          simp only [List.length_append, List.length_cons, List.length_nil]
          omega
        rw [hp, ih (h' ++ [y]) hlen, List.append_assoc, List.singleton_append,
          List.cons_append]
        have hL : (a :: (h' ++ y :: ys)).length - max_historial
            = ((h' ++ y :: ys).length - max_historial) + 1 := by
          simp only [List.length_cons, List.length_append]
          omega
        rw [hL, List.drop_succ_cons]

/-- Special case: from an empty history, the retained window after the
whole sample list is its last `max_historial` elements. -/
theorem foldl_pasoHistorial_nil (ys : List ℚ) :
    ys.foldl pasoHistorial [] = ys.drop (ys.length - max_historial) := by
  have := foldl_pasoHistorial_eq ys [] (by simp [max_historial])
  simpa using this

/-! ## Claims C1, C2, C4: the crossing detector -/

/-- **C1** For every identity, over the whole sequence of
`detectar_cruce_linea` calls between its creation (empty history, not in
`CrossedSet`) and its retirement: at most one call returns an event; the
id ends in `CrossedSet` iff exactly one event was emitted; and once the id
is in `CrossedSet`, no call returns an event, however often the foot-y
oscillates across the line. -/
theorem C1_at_most_one_crossing_event (yc : ℚ) (ys : List ℚ) :
    (((runCruce yc ⟨[], false⟩ ys).2.filterMap id).length ≤ 1) ∧
    ((runCruce yc ⟨[], false⟩ ys).1.cruzado = true ↔
        ((runCruce yc ⟨[], false⟩ ys).2.filterMap id).length = 1) ∧
    (∀ st : CruceState, st.cruzado = true → ∀ y : ℚ,
        (paso_cruce yc st y).2 = none) := by
  refine ⟨((runCruce_spec yc ys ⟨[], false⟩).2 rfl).1,
          ((runCruce_spec yc ys ⟨[], false⟩).2 rfl).2, ?_⟩
  intro st h y
  exact paso_cruce_blocked yc st y h

/-- Witness for C1 at the line `y = 300` with a concrete lifetime. -/
theorem C1_at_most_one_crossing_event_witness :
    (((runCruce 300 ⟨[], false⟩ [280, 285, 320, 280]).2.filterMap id).length ≤ 1) ∧
    ((paso_cruce 300 ⟨[280, 285, 320], true⟩ 280).2 = none) :=
  ⟨(C1_at_most_one_crossing_event 300 [280, 285, 320, 280]).1,
   (C1_at_most_one_crossing_event 300 []).2.2 ⟨[280, 285, 320], true⟩ rfl 280⟩

/-- **C2, counterexample** With the line at `y = 300`, foot-y samples
`280, 285` then `320` produce an entrance event, but the subsequent
observation of `280` returns *no* event (the id is already in
`CrossedSet`); the claimed exit event never fires. -/
theorem C2_exit_event_counterexample :
    (runCruce 300 ⟨[], false⟩ [280, 285, 320, 280]).2
      = [none, none, some Movimiento.entrada, none] ∧
    (runCruce 300 ⟨[], false⟩ [280, 285, 320, 280]).2
      ≠ [none, none, some Movimiento.entrada, some Movimiento.salida] := by
  have h : (runCruce 300 ⟨[], false⟩ [280, 285, 320, 280]).2
      = [none, none, some Movimiento.entrada, none] := by
    norm_num [runCruce, paso_cruce, pasoHistorial, max_historial]
  refine ⟨h, ?_⟩
  rw [h]
  simp

/-- **C2 (amended)** Line at `y = 300`, single identity never retired:
after foot-y samples `280, 285`, observing `320` returns an entrance
event; the subsequent observation of `280` and every further observation,
zone transition or not, return no event because the id is already in
`CrossedSet`. -/
theorem C2_end_to_end_amended :
    ((runCruce 300 ⟨[], false⟩ [280, 285, 320]).2
        = [none, none, some Movimiento.entrada]) ∧
    ((runCruce 300 ⟨[], false⟩ [280, 285, 320, 280]).2
        = [none, none, some Movimiento.entrada, none]) ∧
    (∀ ys : List ℚ,
        ((runCruce 300 ⟨[], false⟩ ([280, 285, 320, 280] ++ ys)).2.filterMap id)
          = [Movimiento.entrada]) := by
  refine ⟨by norm_num [runCruce, paso_cruce, pasoHistorial, max_historial],
          by norm_num [runCruce, paso_cruce, pasoHistorial, max_historial], ?_⟩
  intro ys
  rw [runCruce_append, List.filterMap_append]
  have hpre2 : (runCruce 300 ⟨[], false⟩ [280, 285, 320, 280]).2
      = [none, none, some Movimiento.entrada, none] := by
    norm_num [runCruce, paso_cruce, pasoHistorial, max_historial]
  have hpre1 : (runCruce 300 ⟨[], false⟩ [280, 285, 320, 280]).1.cruzado = true := by
    norm_num [runCruce, paso_cruce, pasoHistorial, max_historial]
  rw [hpre2]
  have hrest := (runCruce_spec 300 ys (runCruce 300 ⟨[], false⟩ [280, 285, 320, 280]).1).1 hpre1
  rw [hrest.1]
  rfl

/-- **C4, counterexample** At the sixth observation of the sample sequence
`280, 280, 320, 320, 320, 320` (line at `y = 300`), the detector's
`y_inicial` is `300` — the average of the two oldest *retained* samples
(`280` and `320`, since FIFO eviction has dropped the first sample) — and
its zone is Below; the average of the first two samples *ever recorded* is
`280`, whose zone is Above.  The claim's description of `zone_before`
fails once eviction starts. -/
theorem C4_first_two_counterexample :
    (runCruce 300 ⟨[], false⟩ [280, 280, 320, 320, 320, 320]).1.historial
      = [280, 320, 320, 320, 320] ∧
    y_inicial_en [280, 280, 320, 320, 320, 320] = 300 ∧
    (([280, 280, 320, 320, 320, 320] : List ℚ).take 2).sum / 2 = 280 ∧
    ¬ y_inicial_en [280, 280, 320, 320, 320, 320]
        = (([280, 280, 320, 320, 320, 320] : List ℚ).take 2).sum / 2 ∧
    ¬ ((y_inicial_en [280, 280, 320, 320, 320, 320] < 300) ↔ ((280 : ℚ) < 300)) := by
  refine ⟨?_, ?_, ?_, ?_, ?_⟩
  · norm_num [runCruce, paso_cruce, pasoHistorial, max_historial]
  · norm_num [y_inicial_en, pasoHistorial, max_historial]
  · norm_num
  · norm_num [y_inicial_en, pasoHistorial, max_historial]
  · norm_num [y_inicial_en, pasoHistorial, max_historial]

/-- **C4 (amended)** A call that leaves fewer than 2 stored samples
returns none; the history is the FIFO window of the at most 5 most recent
samples; and every later call computes `y_inicial` as the average of the
two *oldest retained* samples — which coincides with the average of the
first two samples ever recorded only while at most 5 samples have been
recorded. -/
theorem C4_zone_before_amended :
    (∀ (yc : ℚ) (st : CruceState) (y : ℚ),
        (paso_cruce yc st y).1.historial.length < 2 → (paso_cruce yc st y).2 = none) ∧
    (∀ ys : List ℚ, (ys.foldl pasoHistorial []).length ≤ max_historial) ∧
    (∀ ys : List ℚ, ys.foldl pasoHistorial [] = ys.drop (ys.length - max_historial)) ∧
    (∀ ys : List ℚ,
        y_inicial_en ys = ((ys.drop (ys.length - max_historial)).take 2).sum / 2) ∧
    (∀ ys : List ℚ, ys.length ≤ max_historial →
        y_inicial_en ys = (ys.take 2).sum / 2) := by
  refine ⟨?_, ?_, ?_, ?_, ?_⟩
  · intro yc st y hlen
    rw [paso_cruce_historial] at hlen
    simp only [paso_cruce]
    rw [if_pos hlen]
  · intro ys
    rw [foldl_pasoHistorial_nil, List.length_drop]
    omega
  · intro ys
    exact foldl_pasoHistorial_nil ys
  · intro ys
    unfold y_inicial_en
    rw [foldl_pasoHistorial_nil]
  · intro ys hlen
    unfold y_inicial_en
    rw [foldl_pasoHistorial_nil, Nat.sub_eq_zero_of_le hlen, List.drop_zero]

/-- Witness for C4 (amended) at concrete inputs. -/
theorem C4_zone_before_amended_witness :
    ((paso_cruce 300 ⟨[], false⟩ 280).1.historial.length < 2) ∧
    ((paso_cruce 300 ⟨[], false⟩ 280).2 = none) ∧
    (([280, 285] : List ℚ).length ≤ max_historial) ∧
    (y_inicial_en [280, 285] = (([280, 285] : List ℚ).take 2).sum / 2) := by
  have h1 : (paso_cruce 300 (⟨[], false⟩ : CruceState) 280).1.historial.length < 2 := by
    norm_num [paso_cruce, pasoHistorial, max_historial]
  have h2 : (([280, 285] : List ℚ).length ≤ max_historial) := by
    norm_num [max_historial]
  exact ⟨h1, C4_zone_before_amended.1 300 ⟨[], false⟩ 280 h1, h2,
         C4_zone_before_amended.2.2.2.2 [280, 285] h2⟩

/-! ## Claims C3, C10: the calibration unit -/

/-- **C3, counterexample** On a zero-pixel reference (both points at the
same `y`), `confirmar_calibracion` does not fail gracefully with a
degenerate-calibration error: the unguarded division on line 125 raises
(`crash`), after line 124 has already stored the zero reference, and no
calibrated state is set. -/
theorem C3_degenerate_crash_counterexample :
    (confirmar_calibracion
        { sistemaInicial with
            altura_real_referencia_cm := some 210
            modo_calibracion := true
            punto1_calibracion := some (100, 50)
            punto2_calibracion := some (200, 50) }).2 = ConfirmResult.crash ∧
    (confirmar_calibracion
        { sistemaInicial with
            altura_real_referencia_cm := some 210
            modo_calibracion := true
            punto1_calibracion := some (100, 50)
            punto2_calibracion := some (200, 50) }).1.calibrado = false ∧
    (confirmar_calibracion
        { sistemaInicial with
            altura_real_referencia_cm := some 210
            modo_calibracion := true
            punto1_calibracion := some (100, 50)
            punto2_calibracion := some (200, 50) }).1.altura_pixeles_referencia
      = some 0 := by
  refine ⟨?_, ?_, ?_⟩ <;> rfl

/-- **C3 (amended)** `confirmar_calibracion` returns `False` (leaving the
state untouched) when fewer than two points are recorded; with both points
it computes `reference_px = |bottom.y - top.y|`; when `reference_px = 0`
the unguarded division raises an exception (no calibrated state is set,
though `reference_px` is already stored); otherwise it sets
`conversion_factor = real_reference_cm / reference_px`, marks the state
calibrated and exits calibration mode — for `real_reference_cm = 210`,
`top = (100, 50)`, `bottom = (100, 260)` this gives `reference_px = 210`
and `conversion_factor` exactly `1`. -/
theorem C3_confirm_calibration_amended (s : Sistema) :
    ((s.punto1_calibracion = none ∨ s.punto2_calibracion = none) →
        confirmar_calibracion s = (s, ConfirmResult.ok false)) ∧
    (∀ p1 p2 : ℤ × ℤ, ∀ cm : ℚ,
        s.punto1_calibracion = some p1 → s.punto2_calibracion = some p2 →
        s.altura_real_referencia_cm = some cm →
        (|p2.2 - p1.2| ≠ 0 →
          confirmar_calibracion s =
            ({ s with altura_pixeles_referencia := some |p2.2 - p1.2|
                      factor_conversion := some (cm / ((|p2.2 - p1.2| : ℤ) : ℚ))
                      calibrado := true
                      modo_calibracion := false }, ConfirmResult.ok true)) ∧
        (|p2.2 - p1.2| = 0 →
          confirmar_calibracion s =
            ({ s with altura_pixeles_referencia := some 0 }, ConfirmResult.crash))) := by
  constructor
  · intro hp
    cases hq1 : s.punto1_calibracion with
    | none =>
        simp only [confirmar_calibracion, hq1]
    | some p1 =>
        cases hq2 : s.punto2_calibracion with
        | none => simp only [confirmar_calibracion, hq1, hq2]
        | some p2 =>
            exfalso
            rcases hp with hp | hp
            · rw [hq1] at hp; exact Option.noConfusion hp
            · rw [hq2] at hp; exact Option.noConfusion hp
  · intro p1 p2 cm hp1 hp2 hcm
    constructor
    · intro hnz
      simp only [confirmar_calibracion, hp1, hp2, hcm, if_neg hnz]
    · intro hz
      simp only [confirmar_calibracion, hp1, hp2, hcm, hz, if_true]

/-- Witness for C3 (amended): the specified concrete calibration,
`real_reference_cm = 210`, `top = (100, 50)`, `bottom = (100, 260)`,
yields `reference_px = 210` and `conversion_factor` exactly `1`. -/
theorem C3_confirm_calibration_amended_witness :
    ((confirmar_calibracion
        { sistemaInicial with
            altura_real_referencia_cm := some 210
            modo_calibracion := true
            punto1_calibracion := some (100, 50)
            punto2_calibracion := some (100, 260) }).2 = ConfirmResult.ok true) ∧
    ((confirmar_calibracion
        { sistemaInicial with
            altura_real_referencia_cm := some 210
            modo_calibracion := true
            punto1_calibracion := some (100, 50)
            punto2_calibracion := some (100, 260) }).1.altura_pixeles_referencia
        = some 210) ∧
    ((confirmar_calibracion
        { sistemaInicial with
            altura_real_referencia_cm := some 210
            modo_calibracion := true
            punto1_calibracion := some (100, 50)
            punto2_calibracion := some (100, 260) }).1.factor_conversion = some 1) ∧
    ((confirmar_calibracion
        { sistemaInicial with
            altura_real_referencia_cm := some 210
            modo_calibracion := true
            punto1_calibracion := some (100, 50)
            punto2_calibracion := some (100, 260) }).1.calibrado = true) := by
  have h := ((C3_confirm_calibration_amended
      { sistemaInicial with
          altura_real_referencia_cm := some 210
          modo_calibracion := true
          punto1_calibracion := some (100, 50)
          punto2_calibracion := some (100, 260) }).2
      (100, 50) (100, 260) 210 rfl rfl rfl).1 (by norm_num)
  rw [h]
  norm_num

/-- **C10** Once a calibration has been confirmed, `iniciar_calibracion`
(re-entering calibration mode) and `reiniciar_calibracion` (clearing the
points) leave the calibrated flag true and the stored conversion factor
unchanged, and `estimar_altura_real` keeps answering with the old factor
throughout the re-calibration session; an unsuccessful confirm never
replaces the factor either. -/
theorem C10_recalibration_preserves_factor (s : Sistema) (cm : ℚ)
    (hcal : s.calibrado = true) :
    ((iniciar_calibracion s cm).calibrado = true) ∧
    ((iniciar_calibracion s cm).factor_conversion = s.factor_conversion) ∧
    ((reiniciar_calibracion s).calibrado = true) ∧
    ((reiniciar_calibracion s).factor_conversion = s.factor_conversion) ∧
    (∀ h : ℚ, estimar_altura_real (iniciar_calibracion s cm) h
        = estimar_altura_real s h) ∧
    (∀ h : ℚ, estimar_altura_real (reiniciar_calibracion s) h
        = estimar_altura_real s h) ∧
    (∀ s' : Sistema, (confirmar_calibracion s').2 ≠ ConfirmResult.ok true →
        (confirmar_calibracion s').1.factor_conversion = s'.factor_conversion) := by
  refine ⟨hcal, rfl, hcal, rfl, fun _ => rfl, fun _ => rfl, ?_⟩
  intro s' hne
  cases hq1 : s'.punto1_calibracion with
  | none =>
      simp only [confirmar_calibracion, hq1]
  | some p1 =>
      cases hq2 : s'.punto2_calibracion with
      | none => simp only [confirmar_calibracion, hq1, hq2]
      | some p2 =>
          cases hcm2 : s'.altura_real_referencia_cm with
          | none => simp only [confirmar_calibracion, hq1, hq2, hcm2]
          | some c =>
              by_cases hz : |p2.2 - p1.2| = 0
              · simp only [confirmar_calibracion, hq1, hq2, hcm2, if_pos hz]
              · exfalso
                apply hne
                simp only [confirmar_calibracion, hq1, hq2, hcm2, if_neg hz]

/-- Witness for C10 at the concrete calibrated state. -/
theorem C10_recalibration_preserves_factor_witness :
    (sistemaCalibrado.calibrado = true) ∧
    ((iniciar_calibracion sistemaCalibrado 180).factor_conversion = some 1) ∧
    (estimar_altura_real (iniciar_calibracion sistemaCalibrado 180) 170 = some 170) := by
  have h := C10_recalibration_preserves_factor sistemaCalibrado 180 rfl
  refine ⟨rfl, ?_, ?_⟩
  · rw [h.2.1]; rfl
  · rw [h.2.2.2.2.1 170]
    norm_num [estimar_altura_real, sistemaCalibrado, sistemaInicial, pyround1,
      roundHalfEven]

/-! ## Claims C8, C7: height estimation and classification -/

/-- Rounding to the nearest integer (ties to even) moves a value by at
most `1/2`. -/
theorem roundHalfEven_close (x : ℚ) : |(roundHalfEven x : ℚ) - x| ≤ 1/2 := by
  have h1 : ((Int.floor x : ℤ) : ℚ) ≤ x := Int.floor_le x
  have h2 : x < (Int.floor x : ℤ) + 1 := Int.lt_floor_add_one x
  unfold roundHalfEven
  split
  · next h =>
      rw [abs_le]
      constructor <;> linarith
  · split
    · next h h' =>
        rw [abs_le]
        constructor <;> push_cast <;> linarith
    · split
      · next h h' h'' =>
          rw [abs_le]
          constructor <;> push_cast <;> linarith
      · next h h' h'' =>
          rw [abs_le]
          constructor <;> push_cast <;> linarith

/-- Rounding to one decimal place moves a value by at most `1/20`. -/
theorem pyround1_close (x : ℚ) : |pyround1 x - x| ≤ 1/20 := by
  have h := roundHalfEven_close (10 * x)
  rw [abs_le] at h ⊢
  unfold pyround1
  constructor <;> [linarith [h.1, h.2]; linarith [h.1, h.2]]

/-- In a calibrated state the classifier's category is the nested
threshold test of the source, and the reported height is the rounded
estimate. -/
theorem clasificar_eq (s : Sistema) (f : ℚ) (hc : s.calibrado = true)
    (hf : s.factor_conversion = some f) (a w : ℤ) :
    (clasificar_persona s a w).1
      = (if pyround1 ((a : ℚ) * f) < 110 then Categoria.ninio
         else if pyround1 ((a : ℚ) * f) < 150 then Categoria.adolescente
         else if (if w > 0 then (a : ℚ) / (w : ℚ) else 0) > 28/10 then Categoria.mujer
         else Categoria.hombre) ∧
    (clasificar_persona s a w).2.1 = some (pyround1 ((a : ℚ) * f)) := by
  have he : estimar_altura_real s (a : ℚ) = some (pyround1 ((a : ℚ) * f)) := by
    unfold estimar_altura_real
    rw [hc, hf]
  unfold clasificar_persona
  rw [he]
  by_cases h1 : pyround1 ((a : ℚ) * f) < 110
  · simp only [if_pos h1]
    constructor <;> trivial
  · by_cases h2 : pyround1 ((a : ℚ) * f) < 150
    · simp only [if_neg h1, if_pos h2]
      constructor <;> trivial
    · by_cases h3 : (if w > 0 then (a : ℚ) / (w : ℚ) else 0) > 28/10
      · simp only [if_neg h1, if_neg h2, if_pos h3]
        constructor <;> trivial
      · simp only [if_neg h1, if_neg h2, if_neg h3]
        constructor <;> trivial

/-- **C8** `estimar_altura_real` returns `none` in every uncalibrated
state, and in every calibrated state returns
`round(height_px * conversion_factor, 1)`; hence it is linear up to
rounding: each value is within `1/20` of the linear value, and
`estimate_cm(2h)` differs from `2 * estimate_cm(h)` by at most the
accumulated one-decimal rounding slack `3/20`. -/
theorem C8_estimate_cm_linear (s : Sistema) :
    (s.calibrado = false → ∀ h : ℚ, estimar_altura_real s h = none) ∧
    (s.factor_conversion = none → ∀ h : ℚ, estimar_altura_real s h = none) ∧
    (∀ f : ℚ, s.calibrado = true → s.factor_conversion = some f →
      (∀ h : ℚ, estimar_altura_real s h = some (pyround1 (h * f))) ∧
      (∀ h : ℚ, |pyround1 (h * f) - h * f| ≤ 1/20) ∧
      (∀ h : ℚ, |pyround1 (2 * h * f) - 2 * pyround1 (h * f)| ≤ 3/20)) := by
  refine ⟨?_, ?_, ?_⟩
  · intro hc h
    unfold estimar_altura_real
    rw [hc]
  · intro hf h
    unfold estimar_altura_real
    rw [hf]
    cases s.calibrado <;> rfl
  · intro f hc hf
    refine ⟨?_, fun h => pyround1_close (h * f), ?_⟩
    · intro h
      unfold estimar_altura_real
      rw [hc, hf]
    · intro h
      have ha := pyround1_close (2 * h * f)
      have hb := pyround1_close (h * f)
      rw [abs_le] at ha hb ⊢
      constructor <;> [linarith [ha.1, ha.2, hb.1, hb.2]; linarith [ha.1, ha.2, hb.1, hb.2]]

/-- Witness for C8 in the concrete calibrated state (factor 1). -/
theorem C8_estimate_cm_linear_witness :
    (sistemaCalibrado.calibrado = true) ∧
    (sistemaCalibrado.factor_conversion = some 1) ∧
    (estimar_altura_real sistemaCalibrado 160 = some (pyround1 (160 * 1))) ∧
    (|pyround1 (2 * 160 * 1) - 2 * pyround1 (160 * 1)| ≤ 3/20) := by
  have h := (C8_estimate_cm_linear sistemaCalibrado).2.2 1 rfl rfl
  exact ⟨rfl, rfl, h.1 160, h.2.2 160⟩

/-- **C7** `clasificar_persona` returns `(Sin calibrar, none)` whenever the
height estimate is unavailable (in particular whenever the system is not
calibrated); otherwise, with `height_cm = estimar_altura_real height_px`
and `aspect = height_px / width_px` (`0` when `width_px = 0`), it returns
Child iff `height_cm < 110`, Teen iff `110 ≤ height_cm < 150`, and for
`height_cm ≥ 150` Woman iff `aspect > 2.8`, else Man. -/
theorem C7_classifier_thresholds (s : Sistema) :
    (s.calibrado = false → ∀ a w : ℤ,
        clasificar_persona s a w = (Categoria.sinCalibrar, none, (128, 128, 128))) ∧
    (∀ f : ℚ, s.calibrado = true → s.factor_conversion = some f → ∀ a w : ℤ,
      ((clasificar_persona s a w).2.1 = some (pyround1 ((a : ℚ) * f))) ∧
      ((clasificar_persona s a w).1 = Categoria.ninio ↔ pyround1 ((a : ℚ) * f) < 110) ∧
      ((clasificar_persona s a w).1 = Categoria.adolescente ↔
          (110 ≤ pyround1 ((a : ℚ) * f) ∧ pyround1 ((a : ℚ) * f) < 150)) ∧
      ((clasificar_persona s a w).1 = Categoria.mujer ↔
          (150 ≤ pyround1 ((a : ℚ) * f) ∧
           (if w > 0 then (a : ℚ) / (w : ℚ) else 0) > 28/10)) ∧
      ((clasificar_persona s a w).1 = Categoria.hombre ↔
          (150 ≤ pyround1 ((a : ℚ) * f) ∧
           ¬ (if w > 0 then (a : ℚ) / (w : ℚ) else 0) > 28/10))) := by
  constructor
  · intro hc a w
    unfold clasificar_persona
    have he : estimar_altura_real s (a : ℚ) = none := by
      unfold estimar_altura_real
      rw [hc]
    rw [he]
  · intro f hc hf a w
    obtain ⟨hcat, hcm⟩ := clasificar_eq s f hc hf a w
    refine ⟨hcm, ?_, ?_, ?_, ?_⟩ <;> rw [hcat]
    · constructor
      · intro hx
        by_contra h1
        rw [if_neg h1] at hx
        split at hx
        · exact Categoria.noConfusion hx
        · split at hx <;> split at hx <;> exact Categoria.noConfusion hx
      · intro h1
        rw [if_pos h1]
    · constructor
      · intro hx
        by_cases h1 : pyround1 ((a : ℚ) * f) < 110
        · rw [if_pos h1] at hx
          exact Categoria.noConfusion hx
        · rw [if_neg h1] at hx
          by_cases h2 : pyround1 ((a : ℚ) * f) < 150
          · exact ⟨le_of_not_lt h1, h2⟩
          · rw [if_neg h2] at hx
            split at hx <;> split at hx <;> exact Categoria.noConfusion hx
      · rintro ⟨hge, hlt⟩
        rw [if_neg (not_lt.mpr hge), if_pos hlt]
    · constructor
      · intro hx
        by_cases h1 : pyround1 ((a : ℚ) * f) < 110
        · rw [if_pos h1] at hx
          exact Categoria.noConfusion hx
        · rw [if_neg h1] at hx
          by_cases h2 : pyround1 ((a : ℚ) * f) < 150
          · rw [if_pos h2] at hx
            exact Categoria.noConfusion hx
          · by_cases h3 : (if w > 0 then (a : ℚ) / (w : ℚ) else 0) > 28/10
            · exact ⟨le_of_not_lt h2, h3⟩
            · rw [if_neg h2, if_neg h3] at hx
              exact Categoria.noConfusion hx
      · rintro ⟨hge, h3⟩
        have h2 : ¬ pyround1 ((a : ℚ) * f) < 150 := not_lt.mpr hge
        have h1 : ¬ pyround1 ((a : ℚ) * f) < 110 := by
          intro h
          exact absurd (lt_of_lt_of_le h (by norm_num)) (not_lt.mpr hge)
        rw [if_neg h1, if_neg h2, if_pos h3]
    · constructor
      · intro hx
        by_cases h1 : pyround1 ((a : ℚ) * f) < 110
        · rw [if_pos h1] at hx
          exact Categoria.noConfusion hx
        · rw [if_neg h1] at hx
          by_cases h2 : pyround1 ((a : ℚ) * f) < 150
          · rw [if_pos h2] at hx
            exact Categoria.noConfusion hx
          · by_cases h3 : (if w > 0 then (a : ℚ) / (w : ℚ) else 0) > 28/10
            · rw [if_neg h2, if_pos h3] at hx
              exact Categoria.noConfusion hx
            · exact ⟨le_of_not_lt h2, h3⟩
      · rintro ⟨hge, h3⟩
        have h2 : ¬ pyround1 ((a : ℚ) * f) < 150 := not_lt.mpr hge
        have h1 : ¬ pyround1 ((a : ℚ) * f) < 110 := by
          intro h
          exact absurd (lt_of_lt_of_le h (by norm_num)) (not_lt.mpr hge)
        rw [if_neg h1, if_neg h2, if_neg h3]

/-- Witness for C7 at the classifier boundaries, with conversion factor
`1/10`: pixel heights 1099, 1100 and 1500 give estimated heights 109.9,
110.0 and 150.0, classified Child, Teen, and Woman (aspect 3 > 2.8)
respectively — never Teen at 150.0. -/
theorem C7_classifier_thresholds_witness :
    ((clasificar_persona
        { sistemaCalibrado with factor_conversion := some (1/10) } 1099 500).1
      = Categoria.ninio) ∧
    ((clasificar_persona
        { sistemaCalibrado with factor_conversion := some (1/10) } 1100 500).1
      = Categoria.adolescente) ∧
    ((clasificar_persona
        { sistemaCalibrado with factor_conversion := some (1/10) } 1500 500).1
      = Categoria.mujer) ∧
    ((clasificar_persona
        { sistemaCalibrado with factor_conversion := some (1/10) } 1500 600).1
      = Categoria.hombre) := by
  have h := (C7_classifier_thresholds
      { sistemaCalibrado with factor_conversion := some (1/10) }).2 (1/10) rfl rfl
  refine ⟨((h 1099 500).2.1).mpr ?_, ((h 1100 500).2.2.1).mpr ?_,
          ((h 1500 500).2.2.2.1).mpr ?_, ((h 1500 600).2.2.2.2).mpr ?_⟩
  · norm_num [pyround1, roundHalfEven]
  · norm_num [pyround1, roundHalfEven]
  · norm_num [pyround1, roundHalfEven]
  · norm_num [pyround1, roundHalfEven]

/-! ## Lemmas about the identity tracker -/

/-- Correctness of the inner matching loop fold: the running best never
increases, bounds every unmatched candidate seen, and is either the start
value or a strictly better unmatched candidate from the list. -/
theorem mejorPaso_foldl_spec (centro : ℤ × ℤ) (usados : List Nat) :
    ∀ (prev : List (Nat × PersonaInfo)) (acc : Option Nat × ℤ),
      ((prev.foldl (mejorPaso centro usados) acc).2 ≤ acc.2) ∧
      (∀ q ∈ prev, q.1 ∉ usados →
          (prev.foldl (mejorPaso centro usados) acc).2
            ≤ calcular_distancia_euclidiana_sq centro q.2.centro) ∧
      ((prev.foldl (mejorPaso centro usados) acc) = acc ∨
        ∃ i info, (prev.foldl (mejorPaso centro usados) acc).1 = some i ∧
          (i, info) ∈ prev ∧ i ∉ usados ∧
          calcular_distancia_euclidiana_sq centro info.centro
            = (prev.foldl (mejorPaso centro usados) acc).2 ∧
          (prev.foldl (mejorPaso centro usados) acc).2 < acc.2) := by
  intro prev
  induction prev with
  | nil =>
      intro acc
      exact ⟨le_refl _, by simp, Or.inl rfl⟩
  | cons p prev ih =>
      intro acc
      rw [List.foldl_cons]
      by_cases hu : p.1 ∈ usados
      · have hstep : mejorPaso centro usados acc p = acc := by
          unfold mejorPaso
          rw [if_pos hu]
        rw [hstep]
        obtain ⟨ih1, ih2, ih3⟩ := ih acc
        refine ⟨ih1, ?_, ?_⟩
        · intro q hq hqu
          rcases List.mem_cons.mp hq with rfl | hq'
          · exact absurd hu hqu
          · exact ih2 q hq' hqu
        · rcases ih3 with heq | ⟨i, info, h1, h2, h3, h4, h5⟩
          · exact Or.inl heq
          · exact Or.inr ⟨i, info, h1, List.mem_cons_of_mem p h2, h3, h4, h5⟩
      · by_cases hd : calcular_distancia_euclidiana_sq centro p.2.centro < acc.2
        · have hstep : mejorPaso centro usados acc p
              = (some p.1, calcular_distancia_euclidiana_sq centro p.2.centro) := by
            unfold mejorPaso
            rw [if_neg hu]
            exact if_pos hd
          rw [hstep]
          obtain ⟨ih1, ih2, ih3⟩ :=
            ih (some p.1, calcular_distancia_euclidiana_sq centro p.2.centro)
          refine ⟨le_trans ih1 (le_of_lt hd), ?_, ?_⟩
          · intro q hq hqu
            rcases List.mem_cons.mp hq with rfl | hq'
            · exact ih1
            · exact ih2 q hq' hqu
          · rcases ih3 with heq | ⟨i, info, h1, h2, h3, h4, h5⟩
            · refine Or.inr ⟨p.1, p.2, ?_, ?_, hu, ?_, ?_⟩
              · rw [heq]
              · exact List.mem_cons_self p prev
              · rw [heq]
              · rw [heq]
                exact hd
            · exact Or.inr ⟨i, info, h1, List.mem_cons_of_mem p h2, h3, h4,
                lt_trans h5 hd⟩
        · have hstep : mejorPaso centro usados acc p = acc := by
            unfold mejorPaso
            rw [if_neg hu]
            exact if_neg hd
          rw [hstep]
          obtain ⟨ih1, ih2, ih3⟩ := ih acc
          refine ⟨ih1, ?_, ?_⟩
          · intro q hq hqu
            rcases List.mem_cons.mp hq with rfl | hq'
            · exact le_trans ih1 (not_lt.mp hd)
            · exact ih2 q hq' hqu
          · rcases ih3 with heq | ⟨i, info, h1, h2, h3, h4, h5⟩
            · exact Or.inl heq
            · exact Or.inr ⟨i, info, h1, List.mem_cons_of_mem p h2, h3, h4, h5⟩

/-- `buscar_mejor` returns `none` exactly when no unmatched previous
identity lies strictly inside the threshold, and otherwise returns an
unmatched previous identity of minimal distance, strictly inside the
threshold. -/
theorem buscar_mejor_spec (centro : ℤ × ℤ) (usados : List Nat)
    (prev : List (Nat × PersonaInfo)) :
    ((buscar_mejor centro usados prev).1 = none →
        ∀ q ∈ prev, q.1 ∉ usados →
          distancia_maxima_tracking ^ 2
            ≤ calcular_distancia_euclidiana_sq centro q.2.centro) ∧
    (∀ i, (buscar_mejor centro usados prev).1 = some i →
        ∃ info, (i, info) ∈ prev ∧ i ∉ usados ∧
          calcular_distancia_euclidiana_sq centro info.centro
            < distancia_maxima_tracking ^ 2 ∧
          ∀ q ∈ prev, q.1 ∉ usados →
            calcular_distancia_euclidiana_sq centro info.centro
              ≤ calcular_distancia_euclidiana_sq centro q.2.centro) := by
  unfold buscar_mejor
  obtain ⟨h1, h2, h3⟩ := mejorPaso_foldl_spec centro usados prev
    (none, distancia_maxima_tracking ^ 2)
  constructor
  · intro hnone q hq hqu
    rcases h3 with heq | ⟨i, info, hi1, _, _, _, _⟩
    · have := h2 q hq hqu
      rw [heq] at this
      exact this
    · rw [hnone] at hi1
      exact Option.noConfusion hi1
  · intro i hi
    rcases h3 with heq | ⟨i', info, hi1, hi2, hi3, hi4, hi5⟩
    · rw [heq] at hi
      exact Option.noConfusion hi
    · rw [hi] at hi1
      have hii : i' = i := (Option.some.inj hi1).symm
      subst hii
      refine ⟨info, hi2, hi3, ?_, ?_⟩
      · rw [hi4]
        exact hi5
      · intro q hq hqu
        rw [hi4]
        exact h2 q hq hqu

/-- The two possible outcomes of one iteration of the detection loop:
bind to the returned best id, or allocate the next fresh id. -/
theorem procesar_deteccion_cases (s : Sistema) (acc : TrackAcc) (d : BBox) :
    (∃ i, (buscar_mejor (obtener_centro_bbox d) acc.ids_usados s.personas_trackeadas).1
          = some i ∧
        (procesar_deteccion s acc d).personas_actual
          = acc.personas_actual ++ [(i, crearInfo s d)] ∧
        (procesar_deteccion s acc d).ids_usados = acc.ids_usados ++ [i] ∧
        (procesar_deteccion s acc d).siguiente_id = acc.siguiente_id) ∨
    ((buscar_mejor (obtener_centro_bbox d) acc.ids_usados s.personas_trackeadas).1
          = none ∧
        (procesar_deteccion s acc d).personas_actual
          = acc.personas_actual ++ [(acc.siguiente_id, crearInfo s d)] ∧
        (procesar_deteccion s acc d).ids_usados = acc.ids_usados ∧
        (procesar_deteccion s acc d).siguiente_id = acc.siguiente_id + 1) := by
  simp only [procesar_deteccion]
  cases hb : (buscar_mejor (obtener_centro_bbox d) acc.ids_usados s.personas_trackeadas).1 with
  | none =>
      right
      exact ⟨rfl, rfl, rfl, rfl⟩
  | some i =>
      left
      exact ⟨i, rfl, rfl, rfl, rfl⟩

/-- The id counter never decreases across one detection. -/
theorem procesar_deteccion_sig_mono (s : Sistema) (acc : TrackAcc) (d : BBox) :
    acc.siguiente_id ≤ (procesar_deteccion s acc d).siguiente_id := by
  rcases procesar_deteccion_cases s acc d with ⟨i, _, _, _, h4⟩ | ⟨_, _, _, h4⟩
  · rw [h4]
  · rw [h4]
    exact Nat.le_succ _

/-- Invariant of the detection loop fold: the id counter grows, and every
entry of the built mapping is either inherited from the accumulator, a
matched previous id, or a freshly allocated id in the counter's range. -/
theorem procesar_foldl_spec (s : Sistema) (dets : List BBox) :
    ∀ acc : TrackAcc,
      (acc.siguiente_id ≤ (dets.foldl (procesar_deteccion s) acc).siguiente_id) ∧
      (∀ q ∈ (dets.foldl (procesar_deteccion s) acc).personas_actual,
        q ∈ acc.personas_actual ∨
        q.1 ∈ s.personas_trackeadas.map (fun p => p.1) ∨
        (acc.siguiente_id ≤ q.1 ∧
         q.1 < (dets.foldl (procesar_deteccion s) acc).siguiente_id)) := by
  induction dets with
  | nil =>
      intro acc
      exact ⟨le_refl _, fun q hq => Or.inl hq⟩
  | cons d dets ih =>
      intro acc
      rw [List.foldl_cons]
      obtain ⟨ih1, ih2⟩ := ih (procesar_deteccion s acc d)
      refine ⟨le_trans (procesar_deteccion_sig_mono s acc d) ih1, ?_⟩
      intro q hq
      rcases ih2 q hq with hq' | hq' | hq'
      · rcases procesar_deteccion_cases s acc d with
          ⟨i, hb, h2, h3, h4⟩ | ⟨hb, h2, h3, h4⟩
        · rw [h2] at hq'
          rcases List.mem_append.mp hq' with hmem | hmem
          · exact Or.inl hmem
          · have hqi : q = (i, crearInfo s d) := by
              simpa using hmem
            obtain ⟨info, hinfo, _⟩ := (buscar_mejor_spec (obtener_centro_bbox d)
              acc.ids_usados s.personas_trackeadas).2 i hb
            refine Or.inr (Or.inl ?_)
            rw [hqi]
            exact List.mem_map.mpr ⟨(i, info), hinfo, rfl⟩
        · rw [h2] at hq'
          rcases List.mem_append.mp hq' with hmem | hmem
          · exact Or.inl hmem
          · have hqi : q = (acc.siguiente_id, crearInfo s d) := by
              simpa using hmem
            refine Or.inr (Or.inr ?_)
            rw [hqi]
            refine ⟨le_refl _, ?_⟩
            have hlt : acc.siguiente_id < (procesar_deteccion s acc d).siguiente_id := by
              rw [h4]
              exact Nat.lt_succ_self _
            exact lt_of_lt_of_le hlt ih1
      · exact Or.inr (Or.inl hq')
      · exact Or.inr (Or.inr ⟨le_trans (procesar_deteccion_sig_mono s acc d) hq'.1,
          hq'.2⟩)

/-- `List.contains` agrees with propositional membership on `Nat`. -/
theorem contains_true_iff {l : List Nat} {a : Nat} :
    l.contains a = true ↔ a ∈ l :=
  List.elem_iff

/-! ## Claim C5: greedy matching and fresh id allocation -/

/-- **C5** Single-pass greedy matching of `trackear_personas`: a detection
binds to an unmatched previous identity of minimal centroid distance when
that distance beats the 100 px threshold (all comparisons squared, which
agrees with the source's `sqrt` comparisons); otherwise every unmatched
previous identity is at least the threshold away and a new identity is
created under the current counter value, which then increments; the
counter never decreases, and when all live ids are below the counter, all
ids stay below the counter and newly created ids are at least the old
counter (so ids are never reused). -/
theorem C5_greedy_matching (s : Sistema) (dets : List BBox) :
    (∀ (centro : ℤ × ℤ) (usados : List Nat) (i : Nat),
        (buscar_mejor centro usados s.personas_trackeadas).1 = some i →
        ∃ info, (i, info) ∈ s.personas_trackeadas ∧ i ∉ usados ∧
          calcular_distancia_euclidiana_sq centro info.centro
            < distancia_maxima_tracking ^ 2 ∧
          ∀ q ∈ s.personas_trackeadas, q.1 ∉ usados →
            calcular_distancia_euclidiana_sq centro info.centro
              ≤ calcular_distancia_euclidiana_sq centro q.2.centro) ∧
    (∀ (centro : ℤ × ℤ) (usados : List Nat),
        (buscar_mejor centro usados s.personas_trackeadas).1 = none →
        ∀ q ∈ s.personas_trackeadas, q.1 ∉ usados →
          distancia_maxima_tracking ^ 2
            ≤ calcular_distancia_euclidiana_sq centro q.2.centro) ∧
    (∀ (acc : TrackAcc) (d : BBox) (i : Nat),
        (buscar_mejor (obtener_centro_bbox d) acc.ids_usados
            s.personas_trackeadas).1 = some i →
        (procesar_deteccion s acc d).personas_actual
          = acc.personas_actual ++ [(i, crearInfo s d)] ∧
        (procesar_deteccion s acc d).siguiente_id = acc.siguiente_id) ∧
    (∀ (acc : TrackAcc) (d : BBox),
        (buscar_mejor (obtener_centro_bbox d) acc.ids_usados
            s.personas_trackeadas).1 = none →
        (procesar_deteccion s acc d).personas_actual
          = acc.personas_actual ++ [(acc.siguiente_id, crearInfo s d)] ∧
        (procesar_deteccion s acc d).siguiente_id = acc.siguiente_id + 1) ∧
    (s.siguiente_id ≤ (trackear_personas s dets).1.siguiente_id) ∧
    ((∀ p ∈ s.personas_trackeadas, p.1 < s.siguiente_id) →
        (∀ q ∈ (trackear_personas s dets).2,
            q.1 < (trackear_personas s dets).1.siguiente_id) ∧
        (∀ q ∈ (trackear_personas s dets).2,
            q.1 ∉ s.personas_trackeadas.map (fun p => p.1) →
            s.siguiente_id ≤ q.1)) := by
  refine ⟨?_, ?_, ?_, ?_, ?_, ?_⟩
  · intro centro usados i hi
    exact (buscar_mejor_spec centro usados s.personas_trackeadas).2 i hi
  · intro centro usados hn
    exact (buscar_mejor_spec centro usados s.personas_trackeadas).1 hn
  · intro acc d i hb
    rcases procesar_deteccion_cases s acc d with
      ⟨i', hb', h2, h3, h4⟩ | ⟨hb', h2, h3, h4⟩
    · rw [hb] at hb'
      cases Option.some.inj hb'
      exact ⟨h2, h4⟩
    · rw [hb] at hb'
      exact Option.noConfusion hb'
  · intro acc d hb
    rcases procesar_deteccion_cases s acc d with
      ⟨i', hb', h2, h3, h4⟩ | ⟨hb', h2, h3, h4⟩
    · rw [hb] at hb'
      exact Option.noConfusion hb'
    · exact ⟨h2, h4⟩
  · show s.siguiente_id ≤
      (dets.foldl (procesar_deteccion s) ⟨[], [], s.siguiente_id⟩).siguiente_id
    exact (procesar_foldl_spec s dets ⟨[], [], s.siguiente_id⟩).1
  · intro hWF
    have hmain := procesar_foldl_spec s dets ⟨[], [], s.siguiente_id⟩
    constructor
    · intro q hq
      rcases hmain.2 q hq with hq' | hq' | hq'
      · exact absurd hq' (List.not_mem_nil q)
      · obtain ⟨p, hp, hpe⟩ := List.mem_map.mp hq'
        show q.1 <
          (dets.foldl (procesar_deteccion s) ⟨[], [], s.siguiente_id⟩).siguiente_id
        calc q.1 = p.1 := hpe.symm
          _ < s.siguiente_id := hWF p hp
          _ ≤ _ := hmain.1
      · exact hq'.2
    · intro q hq hqfresh
      rcases hmain.2 q hq with hq' | hq' | hq'
      · exact absurd hq' (List.not_mem_nil q)
      · exact absurd hq' hqfresh
      · exact hq'.1

/-- Witness for C5: a detection at the origin with two unmatched previous
identities at distances 10 and 90 (threshold 100) binds to the distance-10
identity, id 7. -/
theorem C5_greedy_matching_witness :
    ((buscar_mejor (0, 0) [] sistemaDosPersonas.personas_trackeadas).1 = some 7) ∧
    (∃ info, (7, info) ∈ sistemaDosPersonas.personas_trackeadas ∧
      7 ∉ ([] : List Nat) ∧
      calcular_distancia_euclidiana_sq (0, 0) info.centro
        < distancia_maxima_tracking ^ 2 ∧
      ∀ q ∈ sistemaDosPersonas.personas_trackeadas, q.1 ∉ ([] : List Nat) →
        calcular_distancia_euclidiana_sq (0, 0) info.centro
          ≤ calcular_distancia_euclidiana_sq (0, 0) q.2.centro) ∧
    (∀ p ∈ sistemaDosPersonas.personas_trackeadas,
        p.1 < sistemaDosPersonas.siguiente_id) ∧
    (∀ q ∈ (trackear_personas sistemaDosPersonas []).2,
        q.1 ∉ sistemaDosPersonas.personas_trackeadas.map (fun p => p.1) →
        sistemaDosPersonas.siguiente_id ≤ q.1) := by
  have hb : (buscar_mejor (0, 0) [] sistemaDosPersonas.personas_trackeadas).1
      = some 7 := by
    decide
  have hWF : ∀ p ∈ sistemaDosPersonas.personas_trackeadas,
      p.1 < sistemaDosPersonas.siguiente_id := by
    decide
  exact ⟨hb, (C5_greedy_matching sistemaDosPersonas []).1 (0, 0) [] 7 hb, hWF,
    ((C5_greedy_matching sistemaDosPersonas []).2.2.2.2.2 hWF).2⟩

/-! ## Claim C6: retirement of unmatched identities -/

/-- **C6** After `trackear_personas`, every previous identity absent from
the returned mapping (i.e. that matched no detection this frame) is gone
from the new tracking map, from `historial_posicion` and from
`ids_cruzados`, all in the same update; and every identity of the returned
mapping that is not a previous identity is a fresh id at least the old
counter, not in the new `ids_cruzados` — a re-detected person restarts
with an empty crossing budget. -/
theorem C6_retirement_and_fresh_budget (s : Sistema) (dets : List BBox)
    (hWF : ∀ p ∈ s.personas_trackeadas, p.1 < s.siguiente_id)
    (hWFc : ∀ i ∈ s.ids_cruzados, i < s.siguiente_id) :
    (∀ p ∈ s.personas_trackeadas,
        p.1 ∉ (trackear_personas s dets).2.map (fun q => q.1) →
        (∀ q ∈ (trackear_personas s dets).1.personas_trackeadas, q.1 ≠ p.1) ∧
        (∀ kv ∈ (trackear_personas s dets).1.historial_posicion, kv.1 ≠ p.1) ∧
        (p.1 ∉ (trackear_personas s dets).1.ids_cruzados)) ∧
    (∀ q ∈ (trackear_personas s dets).2,
        q.1 ∉ s.personas_trackeadas.map (fun p => p.1) →
        (q.1 ∉ (trackear_personas s dets).1.ids_cruzados) ∧
        s.siguiente_id ≤ q.1) := by
  have hmain := procesar_foldl_spec s dets ⟨[], [], s.siguiente_id⟩
  constructor
  · intro p hpmem hpnot
    have hfuera : p.1 ∈ (s.personas_trackeadas.map (fun q => q.1)).filter
        (fun i => !((dets.foldl (procesar_deteccion s)
            ⟨[], [], s.siguiente_id⟩).personas_actual.map (fun q => q.1)).contains i) := by
      rw [List.mem_filter]
      refine ⟨List.mem_map.mpr ⟨p, hpmem, rfl⟩, ?_⟩
      rw [Bool.not_eq_true']
      rw [← Bool.not_eq_true]
      intro hcon
      exact hpnot (contains_true_iff.mp hcon)
    refine ⟨?_, ?_, ?_⟩
    · intro q hq hqe
      exact hpnot (List.mem_map.mpr ⟨q, hq, hqe⟩)
    · intro kv hkv hkve
      have hkv' : kv ∈ s.historial_posicion.filter (fun kv =>
          !(((s.personas_trackeadas.map (fun q => q.1)).filter
              (fun i => !((dets.foldl (procesar_deteccion s)
                  ⟨[], [], s.siguiente_id⟩).personas_actual.map
                    (fun q => q.1)).contains i)).contains kv.1)) := hkv
      have hflt := (List.mem_filter.mp hkv').2
      rw [Bool.not_eq_true'] at hflt
      rw [← Bool.not_eq_true] at hflt
      rw [hkve] at hflt
      exact hflt (contains_true_iff.mpr hfuera)
    · intro hmem
      have hmem' : p.1 ∈ s.ids_cruzados.filter (fun i =>
          !(((s.personas_trackeadas.map (fun q => q.1)).filter
              (fun i => !((dets.foldl (procesar_deteccion s)
                  ⟨[], [], s.siguiente_id⟩).personas_actual.map
                    (fun q => q.1)).contains i)).contains i)) := hmem
      have hflt := (List.mem_filter.mp hmem').2
      rw [Bool.not_eq_true'] at hflt
      rw [← Bool.not_eq_true] at hflt
      exact hflt (contains_true_iff.mpr hfuera)
  · intro q hq hqfresh
    have hge : s.siguiente_id ≤ q.1 := by
      rcases hmain.2 q hq with hq' | hq' | hq'
      · exact absurd hq' (List.not_mem_nil q)
      · exact absurd hq' hqfresh
      · exact hq'.1
    refine ⟨?_, hge⟩
    intro hmem
    have hmem' : q.1 ∈ s.ids_cruzados.filter (fun i =>
        !(((s.personas_trackeadas.map (fun p => p.1)).filter
            (fun i => !((dets.foldl (procesar_deteccion s)
                ⟨[], [], s.siguiente_id⟩).personas_actual.map
                  (fun p => p.1)).contains i)).contains i)) := hmem
    have hin := (List.mem_filter.mp hmem').1
    exact absurd hge (not_le.mpr (hWFc q.1 hin))

/-- Witness for C6: with one previous identity (id 7, crossed) and no
detections, id 7 is fully retired. -/
theorem C6_retirement_and_fresh_budget_witness :
    (∀ p ∈ ({ sistemaDosPersonas with ids_cruzados := [7] } : Sistema).personas_trackeadas,
        p.1 < ({ sistemaDosPersonas with ids_cruzados := [7] } : Sistema).siguiente_id) ∧
    (∀ i ∈ ({ sistemaDosPersonas with ids_cruzados := [7] } : Sistema).ids_cruzados,
        i < ({ sistemaDosPersonas with ids_cruzados := [7] } : Sistema).siguiente_id) ∧
    ((7, personaEn (10, 0)) ∈
        ({ sistemaDosPersonas with ids_cruzados := [7] } : Sistema).personas_trackeadas) ∧
    ((7 : Nat) ∉ (trackear_personas
        { sistemaDosPersonas with ids_cruzados := [7] } []).2.map (fun q => q.1)) ∧
    ((7 : Nat) ∉ (trackear_personas
        { sistemaDosPersonas with ids_cruzados := [7] } []).1.ids_cruzados) := by
  have h1 : ∀ p ∈ ({ sistemaDosPersonas with ids_cruzados := [7] } : Sistema).personas_trackeadas,
      p.1 < ({ sistemaDosPersonas with ids_cruzados := [7] } : Sistema).siguiente_id := by
    decide
  have h2 : ∀ i ∈ ({ sistemaDosPersonas with ids_cruzados := [7] } : Sistema).ids_cruzados,
      i < ({ sistemaDosPersonas with ids_cruzados := [7] } : Sistema).siguiente_id := by
    decide
  have h3 : (7, personaEn (10, 0)) ∈
      ({ sistemaDosPersonas with ids_cruzados := [7] } : Sistema).personas_trackeadas := by
    decide
  have h4 : (7 : Nat) ∉ (trackear_personas
      { sistemaDosPersonas with ids_cruzados := [7] } []).2.map (fun q => q.1) := by
    decide
  exact ⟨h1, h2, h3, h4,
    ((C6_retirement_and_fresh_budget
        { sistemaDosPersonas with ids_cruzados := [7] } [] h1 h2).1
      (7, personaEn (10, 0)) h3 h4).2.2⟩

/-! ## Claim C9: calibration mode suspends crossing detection -/

/-- Without calibration the classifier always answers `Sin calibrar`. -/
theorem clasificar_no_calibrado (s : Sistema) (hc : s.calibrado = false)
    (a w : ℤ) :
    clasificar_persona s a w = (Categoria.sinCalibrar, none, (128, 128, 128)) := by
  unfold clasificar_persona
  have he : estimar_altura_real s (a : ℚ) = none := by
    unfold estimar_altura_real
    rw [hc]
  rw [he]

/-- In an uncalibrated state, every identity built by the detection loop
carries the `Sin calibrar` label. -/
theorem procesar_foldl_sin_calibrar (s : Sistema) (hc : s.calibrado = false)
    (dets : List BBox) :
    ∀ acc : TrackAcc,
      (∀ q ∈ acc.personas_actual, q.2.clasificacion = Categoria.sinCalibrar) →
      ∀ q ∈ (dets.foldl (procesar_deteccion s) acc).personas_actual,
        q.2.clasificacion = Categoria.sinCalibrar := by
  have hinfo : ∀ d : BBox, (crearInfo s d).clasificacion = Categoria.sinCalibrar := by
    intro d
    show (clasificar_persona s (calcular_altura_persona d) (d.x2 - d.x1)).1 = _
    rw [clasificar_no_calibrado s hc]
  induction dets with
  | nil =>
      intro acc h
      exact h
  | cons d dets ih =>
      intro acc h
      rw [List.foldl_cons]
      apply ih
      intro q hq
      rcases procesar_deteccion_cases s acc d with
        ⟨i, hb, h2, h3, h4⟩ | ⟨hb, h2, h3, h4⟩
      · rw [h2] at hq
        rcases List.mem_append.mp hq with hmem | hmem
        · exact h q hmem
        · have hqi : q = (i, crearInfo s d) := by
            simpa using hmem
          rw [hqi]
          exact hinfo d
      · rw [h2] at hq
        rcases List.mem_append.mp hq with hmem | hmem
        · exact h q hmem
        · have hqi : q = (acc.siguiente_id, crearInfo s d) := by
            simpa using hmem
          rw [hqi]
          exact hinfo d

/-- **C9, counterexample** When calibration mode is re-entered after a
successful calibration (`iniciar_calibracion` leaves `calibrado = true`),
a frame processed in calibration mode reports a real classification
(here: Woman), not Uncalibrated. -/
theorem C9_uncalibrated_label_counterexample :
    ((iniciar_calibracion sistemaCalibrado 210).modo_calibracion = true) ∧
    (((detectar_y_trackear (iniciar_calibracion sistemaCalibrado 210) 400
        [⟨0, 0, 50, 160⟩]).2.1.map (fun q => q.2.clasificacion))
      = [Categoria.mujer]) ∧
    (Categoria.mujer ≠ Categoria.sinCalibrar) := by
  refine ⟨rfl, ?_, by decide⟩
  norm_num [detectar_y_trackear, trackear_personas, procesar_deteccion, crearInfo,
    buscar_mejor, mejorPaso, clasificar_persona, estimar_altura_real,
    iniciar_calibracion, sistemaCalibrado, sistemaInicial, obtener_centro_bbox,
    obtener_pies_persona, calcular_altura_persona, pyint, pyround1, roundHalfEven,
    distancia_maxima_tracking]

/-- **C9 (amended)** In every frame processed while calibration mode is
active, the pipeline emits no crossing events and never calls the crossing
detector: no sample is appended to any `PositionHistory` entry and no id
is added to `CrossedSet` (identity retirement still prunes both), and —
provided the system is not calibrated — every identity's classification
reported that frame is Uncalibrated.  (If calibration mode was re-entered
after a successful confirm, classifications keep using the old factor.) -/
theorem C9_calibration_mode_amended (s : Sistema) (altura : ℤ) (dets : List BBox)
    (hmodo : s.modo_calibracion = true) :
    ((detectar_y_trackear s altura dets).2.2 = []) ∧
    (∀ i ∈ (detectar_y_trackear s altura dets).1.ids_cruzados,
        i ∈ s.ids_cruzados) ∧
    (∀ kv ∈ (detectar_y_trackear s altura dets).1.historial_posicion,
        kv ∈ s.historial_posicion) ∧
    (s.calibrado = false →
        ∀ q ∈ (detectar_y_trackear s altura dets).2.1,
          q.2.clasificacion = Categoria.sinCalibrar) := by
  cases hy : s.y_cruce with
  | none =>
      have hcond : (trackear_personas
          { s with y_cruce := some ((pyint ((altura : ℚ) * s.posicion_y_cruce) : ℤ) : ℚ) }
          dets).1.modo_calibracion = true := hmodo
      have hred : detectar_y_trackear s altura dets =
          ((trackear_personas
              { s with y_cruce := some ((pyint ((altura : ℚ) * s.posicion_y_cruce) : ℤ) : ℚ) }
              dets).1,
           (trackear_personas
              { s with y_cruce := some ((pyint ((altura : ℚ) * s.posicion_y_cruce) : ℤ) : ℚ) }
              dets).2,
           []) := by
        unfold detectar_y_trackear
        rw [hy]
        simp only [if_pos hcond]
      rw [hred]
      refine ⟨rfl, ?_, ?_, ?_⟩
      · intro i hi
        exact (List.mem_filter.mp hi).1
      · intro kv hkv
        exact (List.mem_filter.mp hkv).1
      · intro hc q hq
        exact procesar_foldl_sin_calibrar
          { s with y_cruce := some ((pyint ((altura : ℚ) * s.posicion_y_cruce) : ℤ) : ℚ) }
          hc dets ⟨[], [], s.siguiente_id⟩ (by intro q hq; exact absurd hq (List.not_mem_nil q)) q hq
  | some yc =>
      have hcond : (trackear_personas s dets).1.modo_calibracion = true := hmodo
      have hred : detectar_y_trackear s altura dets =
          ((trackear_personas s dets).1, (trackear_personas s dets).2, []) := by
        unfold detectar_y_trackear
        rw [hy]
        simp only [if_pos hcond]
      rw [hred]
      refine ⟨rfl, ?_, ?_, ?_⟩
      · intro i hi
        exact (List.mem_filter.mp hi).1
      · intro kv hkv
        exact (List.mem_filter.mp hkv).1
      · intro hc q hq
        exact procesar_foldl_sin_calibrar s hc dets ⟨[], [], s.siguiente_id⟩
          (by intro q hq; exact absurd hq (List.not_mem_nil q)) q hq

/-- Witness for C9 (amended): a frame processed while calibration mode is
active in the initial (uncalibrated) state, with one detection. -/
theorem C9_calibration_mode_amended_witness :
    ((iniciar_calibracion sistemaInicial 210).modo_calibracion = true) ∧
    ((detectar_y_trackear (iniciar_calibracion sistemaInicial 210) 400
        [⟨0, 0, 50, 160⟩]).2.2 = []) ∧
    ((iniciar_calibracion sistemaInicial 210).calibrado = false) ∧
    (∀ q ∈ (detectar_y_trackear (iniciar_calibracion sistemaInicial 210) 400
        [⟨0, 0, 50, 160⟩]).2.1, q.2.clasificacion = Categoria.sinCalibrar) := by
  have h := C9_calibration_mode_amended (iniciar_calibracion sistemaInicial 210)
    400 [⟨0, 0, 50, 160⟩] rfl
  exact ⟨rfl, h.1, rfl, h.2.2.2 rfl⟩

end Aforo
